import Mathlib

/-!
Shallow embedding of the Monitor "wheel" PUT-option screening dashboard.

Source files embedded here:
* src/src/core/calculations.py  (the Metrics Engine, `calculate_metrics`)
* src/main.py, lines 130-165    (the Screening Pipeline loop and filters)
* src/src/data/mock_generator.py (the Synthetic Quote Generator)
* src/src/data/data_provider.py  (module imports and per-ticker batch loop)

Modelling conventions:
* Python/numpy floating-point numbers are modelled as exact real numbers `ℝ`.
* `round(x, n)` (Python round-half-to-even) is modelled by `pyRound n x`,
  round-half-to-even on the exact real value.
* `np.inf` (the Return-on-Risk sentinel) is modelled as `(⊤ : EReal)`.
* `np.exp`, `np.sqrt` are `Real.exp`, `Real.sqrt`;
  `x ** 0.5` is `x ^ (0.5 : ℝ)` (real rpow).
* Python `ZeroDivisionError` on the two unguarded divisions of the Metrics
  Engine (`premium / strike` and `(strike - underlying_price) / underlying_price`)
  is modelled by the `Option`-valued wrapper `calculate_metrics?`, which is
  `none` exactly when one of those two divisors is zero and
  `some (calculate_metrics ...)` otherwise.  The remaining divisions in the
  source are guarded by the branch conditions `hv_20 > 0` and
  `(strike - premium) > 0`, or have a nonzero literal divisor (`365`).
-/

namespace Monitor

/-- Python `round` to an integer: round-half-to-even on the exact real value.
If the fractional part is exactly 1/2 the result is the nearest even integer
(written `2 * round (x / 2)`), otherwise the ordinary nearest integer. -/
noncomputable def pyRoundInt (x : ℝ) : ℤ :=
  if Int.fract x = 1 / 2 then 2 * round (x / 2) else round x

/-- Python `round(x, ndigits)`: scale by `10 ^ ndigits`, round half-to-even,
scale back. -/
noncomputable def pyRound (ndigits : ℕ) (x : ℝ) : ℝ :=
  (pyRoundInt (x * 10 ^ ndigits) : ℝ) / 10 ^ ndigits

/-- Python `round(x, ndigits)` lifted to `EReal`: `round` of `np.inf` is
`np.inf` (and symmetrically for `-np.inf`); finite values round as reals. -/
noncomputable def pyRoundE (ndigits : ℕ) (x : EReal) : EReal :=
  if x = ⊤ then ⊤ else if x = ⊥ then ⊥ else ((pyRound ndigits x.toReal : ℝ) : EReal)

/-- One raw PUT-option quote: the canonical record handed to the core
(the option dictionaries built in mock_generator.py / data_provider.py). -/
structure RawOption where
  strike : ℝ
  premium : ℝ
  iv : ℝ
  delta : ℝ
  gamma : ℝ
  theta : ℝ
  dte : ℝ
  volume : ℝ
  openInterest : ℝ
  bid : ℝ
  ask : ℝ
  last : ℝ

/-- A raw option with the ticker's 20-day historical volatility attached,
mirroring `option['hv_20'] = hv_20` in main.py line 147. -/
structure OptionData extends RawOption where
  hv20 : ℝ

/-- main.py line 147: attach the ticker's `hv_20` to the option record. -/
def attachHv (o : RawOption) (hv : ℝ) : OptionData :=
  { o with hv20 := hv }

/-- The dictionary returned by `calculate_metrics` (calculations.py lines
50-63), field names transliterated from the dict keys. -/
structure Metrics where
  premiumYieldPct : ℝ
  AS : ℝ
  popPct : ℝ
  moneynessPct : ℝ
  expectedPnl : ℝ
  returnOnRiskPct : EReal
  breakeven : ℝ
  thetaDaily : ℝ
  strike : ℝ
  dte : ℝ
  premium : ℝ
  iv : ℝ

/-- calculations.py line 26: the (unrounded) Assignment Score.
`(iv / hv_20) * abs(delta) * np.exp(-k_as_param * abs(moneyness))` when
`hv_20 > 0`, else `0`. -/
noncomputable def assignment_score (iv hv_20 delta k_as_param moneyness : ℝ) : ℝ :=
  if 0 < hv_20 then iv / hv_20 * |delta| * Real.exp (-k_as_param * |moneyness|) else 0

/-- calculations.py `calculate_metrics`, lines 3-63.  Each `let` mirrors one
assignment of the source in order; the returned record mirrors the returned
dict (rounded for display, raw `strike`/`dte`/`premium`/`iv` echoed). -/
noncomputable def calculate_metrics (o : OptionData) (underlying_price k_as_param : ℝ) :
    Metrics :=
  let premium_yield := o.premium / o.strike * 100
  let moneyness := (o.strike - underlying_price) / underlying_price
  let as_score := assignment_score o.iv o.hv20 o.delta k_as_param moneyness
  let expected_move := underlying_price * o.iv * Real.sqrt (o.dte / 365)
  let pop := min (|o.delta| + o.gamma * expected_move * 0.5) 1
  let expected_pnl := o.premium * (1 - |o.delta|)
  let return_on_risk : EReal :=
    if 0 < o.strike - o.premium then ((o.premium / (o.strike - o.premium) * 100 : ℝ) : EReal)
    else ⊤
  let breakeven := o.strike - o.premium
  let theta_daily := |o.theta|
  { premiumYieldPct := pyRound 2 premium_yield
    AS := pyRound 4 as_score
    popPct := pyRound 2 (pop * 100)
    moneynessPct := pyRound 2 (moneyness * 100)
    expectedPnl := pyRound 2 expected_pnl
    returnOnRiskPct := pyRoundE 2 return_on_risk
    breakeven := pyRound 2 breakeven
    thetaDaily := pyRound 3 theta_daily
    strike := o.strike
    dte := o.dte
    premium := o.premium
    iv := o.iv }

/-- Failure model of the engine: Python raises `ZeroDivisionError` exactly when
one of the two unconditionally executed divisions of `calculate_metrics`
(`premium / strike`, line 18, and `(strike - underlying_price) /
underlying_price`, line 21) has a zero divisor; every other division in the
source is guarded by its branch condition or divides by the literal `365`. -/
noncomputable def calculate_metrics? (o : OptionData) (underlying_price k_as_param : ℝ) :
    Option Metrics :=
  if o.strike = 0 ∨ underlying_price = 0 then none
  else some (calculate_metrics o underlying_price k_as_param)

/-- Per-ticker payload of the `{ticker -> data}` map consumed by the
screening loop (main.py lines 143-159) and produced by the data layer. -/
structure TickerData where
  underlying_price : ℝ
  hv20 : ℝ
  options : List RawOption

/-- The user-tunable screening thresholds from the sidebar
(main.py lines 121-124).  The sort settings of lines 127-128 feed only the
final `sort_values` call of line 165 and are kept out of this record. -/
structure Criteria where
  min_yield : ℝ
  max_dte : ℝ
  max_delta : ℝ
  k_param : ℝ

/-- One row appended to `all_options` (main.py lines 151-157): the ticker,
the snapshot display fields, the raw option fields (with `hv_20` attached)
and the derived metrics, merged into one record. -/
structure Candidate where
  ticker : String
  underlying_price : ℝ
  hv20 : ℝ
  option : OptionData
  metrics : Metrics

/-- The inner loop of the screening pipeline (main.py lines 146-159) over one
ticker's option list.  Returns the surviving candidate rows together with the
trace of Metrics-Engine invocations: line 148 calls `calculate_metrics` for
every option, before the delta gate of line 150 is evaluated, so every option
is recorded in the trace whether or not the gate keeps it. -/
noncomputable def screenOptions (ticker : String) (underlying_price hv_20 : ℝ)
    (crit : Criteria) : List RawOption → List Candidate × List OptionData
  | [] => ([], [])
  | option :: rest =>
    let o := attachHv option hv_20
    let metrics := calculate_metrics o underlying_price crit.k_param
    let tail := screenOptions ticker underlying_price hv_20 crit rest
    (if |o.delta| ≤ crit.max_delta then
       if crit.min_yield ≤ metrics.premiumYieldPct ∧ metrics.dte ≤ crit.max_dte then
         { ticker := ticker, underlying_price := underlying_price, hv20 := hv_20,
           option := o, metrics := metrics } :: tail.1
       else tail.1
     else tail.1,
     o :: tail.2)

/-- The screening pipeline over the whole `{ticker -> data}` map
(main.py lines 143-159), with the Metrics-Engine invocation trace. -/
noncomputable def screenTraced (crit : Criteria) :
    List (String × TickerData) → List Candidate × List OptionData
  | [] => ([], [])
  | (ticker, data) :: rest =>
    let head := screenOptions ticker data.underlying_price data.hv20 crit data.options
    let tail := screenTraced crit rest
    (head.1 ++ tail.1, head.2 ++ tail.2)

/-- The candidate rows the screening pipeline accumulates in `all_options`
(before the display sort of main.py line 165, which only reorders them). -/
noncomputable def screen (data : List (String × TickerData)) (crit : Criteria) :
    List Candidate :=
  (screenTraced crit data).1

/-- All option records of the input map, each with its ticker's `hv_20`
attached, in enumeration order. -/
def allOptionData : List (String × TickerData) → List OptionData
  | [] => []
  | (_, data) :: rest => data.options.map (fun o => attachHv o data.hv20) ++ allOptionData rest

/-- Sorting candidates by the Return-on-Risk field.  The field is `EReal`, so
the `+infinity` sentinel is comparable and the sort is a total function; this
models that sorting on the field cannot crash on the sentinel. -/
noncomputable def sortByRor (l : List Candidate) : List Candidate :=
  l.mergeSort fun a b => decide (a.metrics.returnOnRiskPct ≤ b.metrics.returnOnRiskPct)

/-- The pseudo-random draws consumed by one iteration of the strike loop of
mock_generator.py (lines 19-39): `np.random.randint(18, 40)`,
`np.random.uniform(0.05, 0.15)`, two `np.random.uniform(0.8, 1.2)` factors,
`np.random.randint(50, 2000)` and `np.random.randint(200, 10000)`. -/
structure MockDraw where
  dte : ℝ
  ivJitter : ℝ
  gammaNoise : ℝ
  thetaNoise : ℝ
  volume : ℝ
  openInterest : ℝ

/-- Length of `np.arange(price * 0.85, price * 1.02, 1.0)`
(mock_generator.py line 16): `ceil((stop - start) / step)`, clamped at 0. -/
noncomputable def numStrikes (underlying_price : ℝ) : ℕ :=
  (⌈underlying_price * 1.02 - underlying_price * 0.85⌉).toNat

/-- One option record fabricated by the strike loop of mock_generator.py
(lines 18-44), given the draws of that iteration. -/
noncomputable def mockOption (underlying_price hv_20 strike : ℝ) (d : MockDraw) : RawOption :=
  let dte := d.dte
  let iv := hv_20 + d.ivJitter
  let moneyness := (strike - underlying_price) / underlying_price
  let premium := max 0.05 (strike * Real.exp moneyness * 0.015 * (dte / 365) ^ (0.5 : ℝ) * iv)
  let delta := max 0.05 (min 0.55 (0.5 + moneyness * 5))
  let gamma := 0.6 / (strike * (dte / 365) ^ (0.5 : ℝ)) * d.gammaNoise
  let theta := -(premium / dte) * d.thetaNoise
  { strike := strike
    premium := pyRound 2 premium
    iv := pyRound 3 iv
    delta := pyRound 3 delta
    gamma := pyRound 4 gamma
    theta := pyRound 3 theta
    volume := d.volume
    openInterest := d.openInterest
    dte := dte
    bid := pyRound 2 (premium * 0.99)
    ask := pyRound 2 (premium * 1.01)
    last := pyRound 2 premium }

/-- The option list generated for one ticker: one `mockOption` per strike of
the `np.arange` ladder, with fresh draws per iteration. -/
noncomputable def mockOptions (underlying_price hv_20 : ℝ) (draws : ℕ → MockDraw) :
    List RawOption :=
  (List.range (numStrikes underlying_price)).map fun (i : ℕ) =>
    mockOption underlying_price hv_20 (underlying_price * 0.85 + (i : ℝ) * 1.0) (draws i)

/-- `generate_mock_data` (mock_generator.py lines 4-55): per ticker, look up
`(price, hv_20)` in the price map — a missing entry raises `KeyError`, caught
by the per-ticker `except` which skips the ticker — and otherwise emit the
fully populated ticker entry. -/
noncomputable def generate_mock_data :
    List String → (String → Option (ℝ × ℝ)) → (String → ℕ → MockDraw) →
      List (String × TickerData)
  | [], _, _ => []
  | ticker :: rest, price_map, draws =>
    match price_map ticker with
    | none => generate_mock_data rest price_map draws
    | some (price, hv_20) =>
      (ticker, { underlying_price := price, hv20 := hv_20,
                 options := mockOptions price hv_20 (draws ticker) }) ::
        generate_mock_data rest price_map draws

/-- Module-level names defined in src/src/data/yfinance_client.py: the class
of line 14 and the two functions of lines 266 and 273. -/
def yfinance_client_defs : List String :=
  ["RealOptionsDataClient", "get_stock_data", "get_real_options_data"]

/-- Names that src/src/data/data_provider.py line 4 imports from
src.data.yfinance_client. -/
def data_provider_yfinance_imports : List String :=
  ["get_stock_data", "get_options_data", "calculate_greeks_approximation"]

/-- Python import resolution for data_provider.py line 4: the `from ... import`
statement succeeds exactly when every imported name is defined at module level
in the imported module; otherwise the importing module fails to load with
`ImportError` before any of its code runs. -/
def data_provider_imports_resolve : Bool :=
  data_provider_yfinance_imports.all fun n => yfinance_client_defs.contains n

/-- Concrete option quote used by witnesses: spec example scenario 1. -/
noncomputable def sampleOption : RawOption :=
  { strike := 100, premium := 2, iv := 0.3, delta := -0.25, gamma := 0.02, theta := -0.05,
    dte := 30, volume := 500, openInterest := 1000, bid := 1.9, ask := 2.1, last := 2 }

/-- The sample option with `hv_20 = 0.25` attached. -/
noncomputable def sampleData : OptionData := attachHv sampleOption 0.25

/-- A degenerate quote: `strike == premium` and `hv_20 == 0`. -/
noncomputable def degenData : OptionData :=
  { strike := 100, premium := 100, iv := 0.3, delta := -0.25, gamma := 0.02, theta := -0.05,
    dte := 30, volume := 0, openInterest := 0, bid := 99, ask := 101, last := 100, hv20 := 0 }

/-- Concrete screening criteria used by witnesses. -/
noncomputable def sampleCriteria : Criteria :=
  { min_yield := 1, max_dte := 60, max_delta := 0.6, k_param := 10 }

/-- A one-ticker input whose single option passes every filter. -/
noncomputable def sampleInput : List (String × TickerData) :=
  [("AAPL", { underlying_price := 100, hv20 := 0.25, options := [sampleOption] })]

/-- The candidate row the pipeline produces from `sampleInput`. -/
noncomputable def sampleCandidate : Candidate :=
  { ticker := "AAPL", underlying_price := 100, hv20 := 0.25,
    option := attachHv sampleOption 0.25,
    metrics := calculate_metrics (attachHv sampleOption 0.25) 100 sampleCriteria.k_param }

/-- An option rejected by the delta gate (`|delta| = 1 > 0.6`). -/
noncomputable def rejectOption : RawOption :=
  { strike := 100, premium := 2, iv := 0.3, delta := -1, gamma := 0.02, theta := -0.05,
    dte := 30, volume := 500, openInterest := 1000, bid := 1.9, ask := 2.1, last := 2 }

/-- A one-ticker input whose single option the delta gate rejects. -/
noncomputable def rejectInput : List (String × TickerData) :=
  [("AAPL", { underlying_price := 100, hv20 := 0.25, options := [rejectOption] })]

/-- Concrete price map for the mock-generator witness. -/
noncomputable def samplePriceMap : String → Option (ℝ × ℝ) := fun _ => some (100, 0.25)

/-- Concrete draw stream for the mock-generator witness. -/
noncomputable def sampleDraws : String → ℕ → MockDraw :=
  fun _ _ => { dte := 30, ivJitter := 0.1, gammaNoise := 1, thetaNoise := 1,
               volume := 100, openInterest := 1000 }

/-- The ticker entry the mock generator produces for the witness inputs. -/
noncomputable def sampleMockData : TickerData :=
  { underlying_price := 100, hv20 := 0.25, options := mockOptions 100 0.25 (sampleDraws "AAPL") }

/-- The first option of the witness ticker's generated ladder (strike 85). -/
noncomputable def sampleMockOption : RawOption :=
  mockOption 100 0.25 (100 * 0.85 + (0 : ℕ) * 1.0) (sampleDraws "AAPL" 0)

theorem pyRoundInt_intCast (m : ℤ) : pyRoundInt (m : ℝ) = m := by
  unfold pyRoundInt
  rw [Int.fract_intCast, if_neg (by norm_num), round_intCast]

theorem pyRound_eval {ndigits : ℕ} {x : ℝ} {m : ℤ} (h : x * 10 ^ ndigits = (m : ℝ)) :
    pyRound ndigits x = (m : ℝ) / 10 ^ ndigits := by
  unfold pyRound
  rw [h, pyRoundInt_intCast]

theorem pyRoundInt_le {x : ℝ} {m : ℤ} (h : x ≤ (m : ℝ)) : pyRoundInt x ≤ m := by
  unfold pyRoundInt
  split_ifs with hf
  · have hx : x = (⌊x⌋ : ℝ) + 1 / 2 := by
      have h0 := Int.floor_add_fract x
      rw [hf] at h0
      linarith
    have hfloor : ⌊x⌋ + 1 ≤ m := by
      have hlt : (⌊x⌋ : ℝ) < (m : ℝ) := by rw [hx] at h; linarith
      exact Int.add_one_le_iff.mpr (Int.cast_lt.mp hlt)
    have hr : ((2 * round (x / 2) : ℤ) : ℝ) < (⌊x⌋ : ℝ) + 2 := by
      rw [round_eq]
      push_cast
      have h1 : (⌊x / 2 + 1 / 2⌋ : ℝ) ≤ x / 2 + 1 / 2 := Int.floor_le _
      linarith
    have h2 : 2 * round (x / 2) < ⌊x⌋ + 2 := by exact_mod_cast hr
    omega
  · rw [round_eq]
    have h1 : ⌊x + 1 / 2⌋ ≤ ⌊(m : ℝ) + 1 / 2⌋ := Int.floor_mono (by linarith)
    have h2 : ⌊(m : ℝ) + 1 / 2⌋ = m := by
      rw [Int.floor_int_add]
      norm_num
    omega

theorem le_pyRoundInt {x : ℝ} {m : ℤ} (h : (m : ℝ) ≤ x) : m ≤ pyRoundInt x := by
  unfold pyRoundInt
  split_ifs with hf
  · have hx : x = (⌊x⌋ : ℝ) + 1 / 2 := by
      have h0 := Int.floor_add_fract x
      rw [hf] at h0
      linarith
    have hfloor : m ≤ ⌊x⌋ := by
      have hlt : (m : ℝ) < ((⌊x⌋ + 1 : ℤ) : ℝ) := by push_cast; linarith
      have := Int.cast_lt.mp hlt
      omega
    have hr : (⌊x⌋ : ℝ) - 1 < ((2 * round (x / 2) : ℤ) : ℝ) := by
      rw [round_eq]
      push_cast
      have h1 : x / 2 + 1 / 2 < ⌊x / 2 + 1 / 2⌋ + 1 := Int.lt_floor_add_one _
      linarith
    have h2 : ⌊x⌋ - 1 < 2 * round (x / 2) := by exact_mod_cast hr
    omega
  · rw [round_eq]
    have h1 : ⌊(m : ℝ) + 1 / 2⌋ ≤ ⌊x + 1 / 2⌋ := Int.floor_mono (by linarith)
    have h2 : ⌊(m : ℝ) + 1 / 2⌋ = m := by
      rw [Int.floor_int_add]
      norm_num
    omega

theorem pyRound_le {ndigits : ℕ} {x : ℝ} {m : ℤ} (h : x * 10 ^ ndigits ≤ (m : ℝ)) :
    pyRound ndigits x ≤ (m : ℝ) / 10 ^ ndigits := by
  unfold pyRound
  have h2 : ((pyRoundInt (x * 10 ^ ndigits) : ℤ) : ℝ) ≤ (m : ℝ) :=
    Int.cast_le.mpr (pyRoundInt_le h)
  gcongr

theorem le_pyRound {ndigits : ℕ} {x : ℝ} {m : ℤ} (h : (m : ℝ) ≤ x * 10 ^ ndigits) :
    (m : ℝ) / 10 ^ ndigits ≤ pyRound ndigits x := by
  unfold pyRound
  have h2 : (m : ℝ) ≤ ((pyRoundInt (x * 10 ^ ndigits) : ℤ) : ℝ) :=
    Int.cast_le.mpr (le_pyRoundInt h)
  gcongr

theorem pyRound_nonneg {ndigits : ℕ} {x : ℝ} (h : 0 ≤ x) : 0 ≤ pyRound ndigits x := by
  have h1 : ((0 : ℤ) : ℝ) ≤ x * 10 ^ ndigits := by
    push_cast
    positivity
  have h2 := le_pyRound h1
  simpa using h2

theorem pyRound_zero (ndigits : ℕ) : pyRound ndigits 0 = 0 := by
  rw [pyRound_eval (m := 0) (by norm_num)]
  norm_num

theorem pyRoundE_coe (ndigits : ℕ) (x : ℝ) :
    pyRoundE ndigits (x : EReal) = ((pyRound ndigits x : ℝ) : EReal) := by
  unfold pyRoundE
  rw [if_neg (EReal.coe_ne_top x), if_neg (EReal.coe_ne_bot x), EReal.toReal_coe]

theorem pyRoundE_top (ndigits : ℕ) : pyRoundE ndigits ⊤ = ⊤ := by
  unfold pyRoundE
  rw [if_pos rfl]

theorem calculate_metrics_AS (o : OptionData) (p k : ℝ) :
    (calculate_metrics o p k).AS =
      pyRound 4 (assignment_score o.iv o.hv20 o.delta k ((o.strike - p) / p)) := rfl

theorem calculate_metrics_premiumYieldPct (o : OptionData) (p k : ℝ) :
    (calculate_metrics o p k).premiumYieldPct = pyRound 2 (o.premium / o.strike * 100) := rfl

theorem calculate_metrics_popPct (o : OptionData) (p k : ℝ) :
    (calculate_metrics o p k).popPct =
      pyRound 2 (min (|o.delta| + o.gamma * (p * o.iv * Real.sqrt (o.dte / 365)) * 0.5) 1
        * 100) := rfl

theorem calculate_metrics_returnOnRisk (o : OptionData) (p k : ℝ) :
    (calculate_metrics o p k).returnOnRiskPct =
      pyRoundE 2 (if 0 < o.strike - o.premium
        then ((o.premium / (o.strike - o.premium) * 100 : ℝ) : EReal) else ⊤) := rfl

theorem calculate_metrics_dte (o : OptionData) (p k : ℝ) :
    (calculate_metrics o p k).dte = o.dte := rfl

theorem calculate_metrics?_eq {o : OptionData} {p k : ℝ} {m : Metrics}
    (hm : calculate_metrics? o p k = some m) : m = calculate_metrics o p k := by
  unfold calculate_metrics? at hm
  split_ifs at hm
  injection hm with h2
  exact h2.symm

theorem assignment_score_nonneg {iv hv delta k mny : ℝ} (hiv : 0 ≤ iv) :
    0 ≤ assignment_score iv hv delta k mny := by
  unfold assignment_score
  split_ifs with h
  · exact mul_nonneg (mul_nonneg (div_nonneg hiv h.le) (abs_nonneg _)) (Real.exp_pos _).le
  · exact le_refl 0

/-- C1: for every option and snapshot with positive strike, premium and
implied volatility, the Metrics Engine's Assignment Score field is the rounded
value of `(iv / hv_20) * |delta| * exp(-k * |moneyness|)` when `hv_20 > 0` and
is `0` when `hv_20 = 0`; in all cases the field is nonnegative. -/
theorem C1_assignment_score_spec (o : OptionData) (p k : ℝ) (m : Metrics)
    (hs : 0 < o.strike) (hpr : 0 < o.premium) (hiv : 0 < o.iv)
    (hm : calculate_metrics? o p k = some m) :
    (0 < o.hv20 → m.AS =
      pyRound 4 (o.iv / o.hv20 * |o.delta| * Real.exp (-k * |(o.strike - p) / p|))) ∧
    (o.hv20 = 0 → m.AS = 0) ∧ 0 ≤ m.AS := by
  obtain rfl := calculate_metrics?_eq hm
  refine ⟨?_, ?_, ?_⟩
  · intro hhv
    rw [calculate_metrics_AS]
    unfold assignment_score
    rw [if_pos hhv]
  · intro hhv
    rw [calculate_metrics_AS]
    unfold assignment_score
    rw [hhv, if_neg (lt_irrefl 0), pyRound_zero]
  · rw [calculate_metrics_AS]
    exact pyRound_nonneg (assignment_score_nonneg hiv.le)

/-- Witness for C1 at the spec's example scenario 1
(strike 100, premium 2, iv 0.3, delta -0.25, hv 0.25, k 10, spot 100). -/
theorem C1_witness :
    (0 : ℝ) < sampleData.strike ∧ (0 : ℝ) < sampleData.premium ∧ (0 : ℝ) < sampleData.iv ∧
    ((0 < sampleData.hv20 →
        (calculate_metrics sampleData 100 10).AS =
          pyRound 4 (sampleData.iv / sampleData.hv20 * |sampleData.delta| *
            Real.exp (-10 * |(sampleData.strike - 100) / 100|))) ∧
      (sampleData.hv20 = 0 → (calculate_metrics sampleData 100 10).AS = 0) ∧
      0 ≤ (calculate_metrics sampleData 100 10).AS) := by
  have h1 : (0 : ℝ) < sampleData.strike := by norm_num [sampleData, attachHv, sampleOption]
  have h2 : (0 : ℝ) < sampleData.premium := by norm_num [sampleData, attachHv, sampleOption]
  have h3 : (0 : ℝ) < sampleData.iv := by norm_num [sampleData, attachHv, sampleOption]
  have hm : calculate_metrics? sampleData 100 10 = some (calculate_metrics sampleData 100 10) := by
    unfold calculate_metrics?
    rw [if_neg]
    push_neg
    refine ⟨?_, by norm_num⟩
    norm_num [sampleData, attachHv, sampleOption]
  exact ⟨h1, h2, h3, C1_assignment_score_spec sampleData 100 10 _ h1 h2 h3 hm⟩

/-- C5, counterexample to the claim as stated: with `hv_20 = 0` (a valid
Metrics-Engine input, for which the score is defined as 0) and nonzero
moneyness, increasing `k` from 5 to 10 does not strictly decrease the
Assignment Score — both scores are 0. -/
theorem C5_counterexample :
    (5 : ℝ) < 10 ∧ ((-0.1 : ℝ) ≠ 0) ∧
    ¬ assignment_score 0.3 0 (-0.25) 10 (-0.1) < assignment_score 0.3 0 (-0.25) 5 (-0.1) := by
  refine ⟨by norm_num, by norm_num, ?_⟩
  unfold assignment_score
  rw [if_neg (lt_irrefl (0 : ℝ)), if_neg (lt_irrefl (0 : ℝ))]
  exact lt_irrefl 0

/-- C5 as amended: the strict decrease additionally requires `hv_20 > 0`,
`iv > 0` and `delta ≠ 0`; under those, for every `k1 < k2` and nonzero
moneyness the Assignment Score with `k2` is strictly smaller. -/
theorem C5_assignment_score_strict_anti (iv hv delta mny k1 k2 : ℝ)
    (hhv : 0 < hv) (hiv : 0 < iv) (hd : delta ≠ 0) (hmny : mny ≠ 0) (hk : k1 < k2) :
    assignment_score iv hv delta k2 mny < assignment_score iv hv delta k1 mny := by
  unfold assignment_score
  rw [if_pos hhv, if_pos hhv]
  have hc : 0 < iv / hv * |delta| := mul_pos (div_pos hiv hhv) (abs_pos.mpr hd)
  have habs : 0 < |mny| := abs_pos.mpr hmny
  have he : Real.exp (-k2 * |mny|) < Real.exp (-k1 * |mny|) := by
    apply Real.exp_lt_exp.mpr
    nlinarith
  exact mul_lt_mul_of_pos_left he hc

/-- Witness for C5's amended theorem at
`iv = 0.3, hv = 0.25, delta = -0.25, moneyness = -0.1, k1 = 5, k2 = 10`. -/
theorem C5_witness :
    (0 : ℝ) < 0.25 ∧ (0 : ℝ) < 0.3 ∧ ((-0.25 : ℝ) ≠ 0) ∧ ((-0.1 : ℝ) ≠ 0) ∧ (5 : ℝ) < 10 ∧
    assignment_score 0.3 0.25 (-0.25) 10 (-0.1) < assignment_score 0.3 0.25 (-0.25) 5 (-0.1) :=
  ⟨by norm_num, by norm_num, by norm_num, by norm_num, by norm_num,
    C5_assignment_score_strict_anti 0.3 0.25 (-0.25) (-0.1) 5 10 (by norm_num) (by norm_num)
      (by norm_num) (by norm_num) (by norm_num)⟩

/-- C6: the Return-on-Risk field is the rounded `premium / (strike - premium)
* 100` when `strike > premium` and the `+infinity` sentinel (a value, not an
error) when `strike <= premium`; sorting any candidate list on this field is a
total function returning a permutation of its input. -/
theorem C6_return_on_risk_sentinel (o : OptionData) (p k : ℝ) (m : Metrics)
    (hm : calculate_metrics? o p k = some m) :
    (o.premium < o.strike →
      m.returnOnRiskPct =
        ((pyRound 2 (o.premium / (o.strike - o.premium) * 100) : ℝ) : EReal) ∧
      m.returnOnRiskPct ≠ ⊤) ∧
    (o.strike ≤ o.premium → m.returnOnRiskPct = ⊤) ∧
    ∀ l : List Candidate, (sortByRor l).Perm l := by
  obtain rfl := calculate_metrics?_eq hm
  refine ⟨?_, ?_, ?_⟩
  · intro hlt
    rw [calculate_metrics_returnOnRisk,
      if_pos (by linarith : (0 : ℝ) < o.strike - o.premium), pyRoundE_coe]
    exact ⟨rfl, EReal.coe_ne_top _⟩
  · intro hle
    rw [calculate_metrics_returnOnRisk,
      if_neg (by linarith : ¬ (0 : ℝ) < o.strike - o.premium), pyRoundE_top]
  · intro l
    exact List.mergeSort_perm l _

/-- Witness for C6 at the sample quote (strike 100, premium 2). -/
theorem C6_witness :
    calculate_metrics? sampleData 100 10 = some (calculate_metrics sampleData 100 10) ∧
    sampleData.premium < sampleData.strike ∧
    (calculate_metrics sampleData 100 10).returnOnRiskPct =
      ((pyRound 2 (sampleData.premium / (sampleData.strike - sampleData.premium) * 100) : ℝ) :
        EReal) ∧
    (calculate_metrics sampleData 100 10).returnOnRiskPct ≠ ⊤ := by
  have hm : calculate_metrics? sampleData 100 10 = some (calculate_metrics sampleData 100 10) := by
    unfold calculate_metrics?
    rw [if_neg]
    push_neg
    refine ⟨?_, by norm_num⟩
    norm_num [sampleData, attachHv, sampleOption]
  have hlt : sampleData.premium < sampleData.strike := by
    norm_num [sampleData, attachHv, sampleOption]
  have h := (C6_return_on_risk_sentinel sampleData 100 10 _ hm).1 hlt
  exact ⟨hm, hlt, h.1, h.2⟩

/-- C7: over the documented valid domain the Probability-of-Profit percentage
is the rounded `min(|delta| + gamma * expectedMove * 0.5, 1.0) * 100` and lies
in `[0, 100]`. -/
theorem C7_pop_clamped (o : OptionData) (p k : ℝ) (m : Metrics)
    (hp : 0 < p) (hiv : 0 < o.iv) (hg : 0 ≤ o.gamma) (hd1 : -1 ≤ o.delta)
    (hd2 : o.delta ≤ 1) (hdte : 0 ≤ o.dte)
    (hm : calculate_metrics? o p k = some m) :
    m.popPct =
      pyRound 2 (min (|o.delta| + o.gamma * (p * o.iv * Real.sqrt (o.dte / 365)) * 0.5) 1
        * 100) ∧
    0 ≤ m.popPct ∧ m.popPct ≤ 100 := by
  obtain rfl := calculate_metrics?_eq hm
  have hem : 0 ≤ p * o.iv * Real.sqrt (o.dte / 365) := by positivity
  have h0 : 0 ≤ |o.delta| + o.gamma * (p * o.iv * Real.sqrt (o.dte / 365)) * 0.5 := by
    have := abs_nonneg o.delta
    nlinarith
  have hy0 : 0 ≤ min (|o.delta| + o.gamma * (p * o.iv * Real.sqrt (o.dte / 365)) * 0.5) 1 :=
    le_min h0 zero_le_one
  have hy1 : min (|o.delta| + o.gamma * (p * o.iv * Real.sqrt (o.dte / 365)) * 0.5) 1 ≤ 1 :=
    min_le_right _ _
  refine ⟨calculate_metrics_popPct o p k, ?_, ?_⟩
  · rw [calculate_metrics_popPct]
    exact pyRound_nonneg (by nlinarith)
  · rw [calculate_metrics_popPct]
    have hb : (min (|o.delta| + o.gamma * (p * o.iv * Real.sqrt (o.dte / 365)) * 0.5) 1 * 100)
        * 10 ^ 2 ≤ ((10000 : ℤ) : ℝ) := by
      push_cast
      nlinarith
    have := pyRound_le hb
    calc pyRound 2 (min (|o.delta| + o.gamma * (p * o.iv * Real.sqrt (o.dte / 365)) * 0.5) 1
          * 100) ≤ ((10000 : ℤ) : ℝ) / 10 ^ 2 := this
      _ = 100 := by norm_num

/-- Witness for C7 at the sample quote. -/
theorem C7_witness :
    (0 : ℝ) < 100 ∧ (0 : ℝ) < sampleData.iv ∧ (0 : ℝ) ≤ sampleData.gamma ∧
    (-1 : ℝ) ≤ sampleData.delta ∧ sampleData.delta ≤ 1 ∧ (0 : ℝ) ≤ sampleData.dte ∧
    0 ≤ (calculate_metrics sampleData 100 10).popPct ∧
    (calculate_metrics sampleData 100 10).popPct ≤ 100 := by
  have h1 : (0 : ℝ) < 100 := by norm_num
  have h2 : (0 : ℝ) < sampleData.iv := by norm_num [sampleData, attachHv, sampleOption]
  have h3 : (0 : ℝ) ≤ sampleData.gamma := by norm_num [sampleData, attachHv, sampleOption]
  have h4 : (-1 : ℝ) ≤ sampleData.delta := by norm_num [sampleData, attachHv, sampleOption]
  have h5 : sampleData.delta ≤ 1 := by norm_num [sampleData, attachHv, sampleOption]
  have h6 : (0 : ℝ) ≤ sampleData.dte := by norm_num [sampleData, attachHv, sampleOption]
  have hm : calculate_metrics? sampleData 100 10 = some (calculate_metrics sampleData 100 10) := by
    unfold calculate_metrics?
    rw [if_neg]
    push_neg
    refine ⟨?_, by norm_num⟩
    norm_num [sampleData, attachHv, sampleOption]
  have h := C7_pop_clamped sampleData 100 10 _ h1 h2 h3 h4 h5 h6 hm
  exact ⟨h1, h2, h3, h4, h5, h6, h.2.1, h.2.2⟩

/-- C8: over the caller's contract (`strike > 0`, `premium > 0`, positive
underlying price), the Metrics Engine always returns a result — no division
error is reached — and in particular `hv_20 = 0` yields score 0 and
`strike = premium` yields the `+infinity` sentinel rather than a crash. -/
theorem C8_engine_total (o : OptionData) (p k : ℝ)
    (hs : 0 < o.strike) (hpr : 0 < o.premium) (hp : 0 < p) :
    calculate_metrics? o p k = some (calculate_metrics o p k) ∧
    (o.hv20 = 0 → (calculate_metrics o p k).AS = 0) ∧
    (o.strike = o.premium → (calculate_metrics o p k).returnOnRiskPct = ⊤) := by
  refine ⟨?_, ?_, ?_⟩
  · unfold calculate_metrics?
    rw [if_neg]
    push_neg
    exact ⟨ne_of_gt hs, ne_of_gt hp⟩
  · intro h0
    rw [calculate_metrics_AS]
    unfold assignment_score
    rw [h0, if_neg (lt_irrefl 0), pyRound_zero]
  · intro heq
    rw [calculate_metrics_returnOnRisk, if_neg (by rw [heq, sub_self]; exact lt_irrefl 0),
      pyRoundE_top]

/-- Witness for C8 at a degenerate quote with `strike = premium = 100` and
`hv_20 = 0` simultaneously. -/
theorem C8_witness :
    (0 : ℝ) < degenData.strike ∧ (0 : ℝ) < degenData.premium ∧ (0 : ℝ) < 100 ∧
    calculate_metrics? degenData 100 10 = some (calculate_metrics degenData 100 10) ∧
    (calculate_metrics degenData 100 10).AS = 0 ∧
    (calculate_metrics degenData 100 10).returnOnRiskPct = ⊤ := by
  have h1 : (0 : ℝ) < degenData.strike := by norm_num [degenData]
  have h2 : (0 : ℝ) < degenData.premium := by norm_num [degenData]
  have h3 : (0 : ℝ) < (100 : ℝ) := by norm_num
  obtain ⟨ha, hb, hc⟩ := C8_engine_total degenData 100 10 h1 h2 h3
  exact ⟨h1, h2, h3, ha, hb (by norm_num [degenData]), hc (by norm_num [degenData])⟩

theorem mem_screenOptions_fst {ticker : String} {p hv : ℝ} {crit : Criteria}
    {l : List RawOption} {c : Candidate}
    (hc : c ∈ (screenOptions ticker p hv crit l).1) :
    |c.option.delta| ≤ crit.max_delta ∧
    crit.min_yield ≤ c.metrics.premiumYieldPct ∧ c.metrics.dte ≤ crit.max_dte := by
  induction l with
  | nil => simp [screenOptions] at hc
  | cons o rest ih =>
    simp only [screenOptions] at hc
    split_ifs at hc with h1 h2
    · rcases List.mem_cons.mp hc with hceq | hmem
      · subst hceq
        exact ⟨h1, h2.1, h2.2⟩
      · exact ih hmem
    · exact ih hc
    · exact ih hc

theorem mem_screenTraced_fst {crit : Criteria} {data : List (String × TickerData)}
    {c : Candidate} (hc : c ∈ (screenTraced crit data).1) :
    |c.option.delta| ≤ crit.max_delta ∧
    crit.min_yield ≤ c.metrics.premiumYieldPct ∧ c.metrics.dte ≤ crit.max_dte := by
  induction data with
  | nil => simp [screenTraced] at hc
  | cons td rest ih =>
    obtain ⟨t, d⟩ := td
    simp only [screenTraced] at hc
    rcases List.mem_append.mp hc with h | h
    · exact mem_screenOptions_fst h
    · exact ih h

/-- C2: every candidate the screening pipeline returns satisfies all three
filter conditions — the delta gate, the minimum-yield gate and the
maximum-DTE gate — against its own merged fields. -/
theorem C2_filters_sound (data : List (String × TickerData)) (crit : Criteria)
    (c : Candidate) (hc : c ∈ screen data crit) :
    |c.option.delta| ≤ crit.max_delta ∧
    crit.min_yield ≤ c.metrics.premiumYieldPct ∧ c.metrics.dte ≤ crit.max_dte := by
  unfold screen at hc
  exact mem_screenTraced_fst hc

theorem screen_sampleInput : screen sampleInput sampleCriteria = [sampleCandidate] := by
  have h1 : |(attachHv sampleOption (0.25 : ℝ)).delta| ≤ sampleCriteria.max_delta := by
    simp only [attachHv, sampleOption, sampleCriteria]
    rw [abs_of_neg (by norm_num : (-0.25 : ℝ) < 0)]
    norm_num
  have hyield :
      (calculate_metrics (attachHv sampleOption 0.25) 100 sampleCriteria.k_param).premiumYieldPct
        = 2 := by
    rw [calculate_metrics_premiumYieldPct]
    have harg : (attachHv sampleOption (0.25 : ℝ)).premium /
        (attachHv sampleOption (0.25 : ℝ)).strike * 100 * 10 ^ 2 = ((200 : ℤ) : ℝ) := by
      simp only [attachHv, sampleOption]
      norm_num
    rw [pyRound_eval harg]
    norm_num
  have h2 : sampleCriteria.min_yield ≤
      (calculate_metrics (attachHv sampleOption 0.25) 100
        sampleCriteria.k_param).premiumYieldPct ∧
      (calculate_metrics (attachHv sampleOption 0.25) 100 sampleCriteria.k_param).dte ≤
        sampleCriteria.max_dte := by
    constructor
    · rw [hyield]
      norm_num [sampleCriteria]
    · rw [calculate_metrics_dte]
      simp only [attachHv, sampleOption, sampleCriteria]
      norm_num
  unfold screen sampleInput
  simp only [screenTraced, screenOptions]
  rw [if_pos h1, if_pos h2]
  simp [screenTraced, screenOptions, sampleCandidate]

/-- Witness for C2: the concrete one-ticker input produces exactly one
candidate, and it satisfies all three filter bounds. -/
theorem C2_witness :
    sampleCandidate ∈ screen sampleInput sampleCriteria ∧
    |sampleCandidate.option.delta| ≤ sampleCriteria.max_delta ∧
    sampleCriteria.min_yield ≤ sampleCandidate.metrics.premiumYieldPct ∧
    sampleCandidate.metrics.dte ≤ sampleCriteria.max_dte := by
  have hmem : sampleCandidate ∈ screen sampleInput sampleCriteria := by
    rw [screen_sampleInput]
    exact List.mem_singleton.mpr rfl
  exact ⟨hmem, C2_filters_sound sampleInput sampleCriteria sampleCandidate hmem⟩

theorem screenOptions_snd (ticker : String) (p hv : ℝ) (crit : Criteria)
    (l : List RawOption) :
    (screenOptions ticker p hv crit l).2 = l.map fun o => attachHv o hv := by
  induction l with
  | nil => rfl
  | cons o rest ih =>
    simp only [screenOptions, List.map_cons]
    rw [ih]

/-- C3 as amended: the delta gate is evaluated before a row is merged (every
returned candidate passed it), but the Metrics Engine is invoked once per
option of the input — including options the delta gate rejects; an empty
ticker map produces an empty result with no engine invocations. -/
theorem C3_gate_order_amended (data : List (String × TickerData)) (crit : Criteria) :
    (screenTraced crit data).2 = allOptionData data ∧
    (data = [] → screenTraced crit data = ([], [])) ∧
    ∀ c ∈ (screenTraced crit data).1, |c.option.delta| ≤ crit.max_delta := by
  refine ⟨?_, ?_, ?_⟩
  · induction data with
    | nil => rfl
    | cons td rest ih =>
      obtain ⟨t, d⟩ := td
      simp only [screenTraced, allOptionData]
      rw [screenOptions_snd, ih]
  · rintro rfl
    rfl
  · intro c hc
    exact (mem_screenTraced_fst hc).1

/-- Witness for C3's amended theorem at the empty input map. -/
theorem C3_witness :
    (screenTraced sampleCriteria ([] : List (String × TickerData))).2 =
      allOptionData ([] : List (String × TickerData)) ∧
    screenTraced sampleCriteria ([] : List (String × TickerData)) = ([], []) := by
  have h := C3_gate_order_amended ([] : List (String × TickerData)) sampleCriteria
  exact ⟨h.1, h.2.1 rfl⟩

/-- C3, counterexample to the claim as stated: a one-option input whose option
the delta gate rejects (`|delta| = 1 > 0.6`) produces no candidates, yet the
Metrics-Engine invocation trace contains the option — line 148 of main.py
calls `calculate_metrics` before the delta gate of line 150 is evaluated. -/
theorem C3_counterexample :
    (screenTraced sampleCriteria rejectInput).1 = [] ∧
    (screenTraced sampleCriteria rejectInput).2 = [attachHv rejectOption 0.25] := by
  have hneg : ¬ |(attachHv rejectOption (0.25 : ℝ)).delta| ≤ sampleCriteria.max_delta := by
    simp only [attachHv, rejectOption, sampleCriteria]
    rw [not_le]
    rw [abs_of_neg (by norm_num : (-1 : ℝ) < 0)]
    norm_num
  constructor
  · simp only [rejectInput, screenTraced, screenOptions]
    rw [if_neg hneg]
    rfl
  · simp only [rejectInput, screenTraced]
    rw [screenOptions_snd]
    rfl

theorem mockOption_bounds (p hv strike : ℝ) (d : MockDraw) :
    0.05 ≤ (mockOption p hv strike d).premium ∧ 0 < (mockOption p hv strike d).premium ∧
    0.05 ≤ (mockOption p hv strike d).delta ∧ (mockOption p hv strike d).delta ≤ 0.55 ∧
    0 < (mockOption p hv strike d).delta := by
  have hprem : (mockOption p hv strike d).premium =
      pyRound 2 (max 0.05 (strike * Real.exp ((strike - p) / p) * 0.015
        * (d.dte / 365) ^ (0.5 : ℝ) * (hv + d.ivJitter))) := rfl
  have hdelta : (mockOption p hv strike d).delta =
      pyRound 3 (max 0.05 (min 0.55 (0.5 + (strike - p) / p * 5))) := rfl
  have hp1 : 0.05 ≤ (mockOption p hv strike d).premium := by
    rw [hprem]
    have hmax := le_max_left (0.05 : ℝ) (strike * Real.exp ((strike - p) / p) * 0.015
      * (d.dte / 365) ^ (0.5 : ℝ) * (hv + d.ivJitter))
    have h5 : ((5 : ℤ) : ℝ) ≤ max 0.05 (strike * Real.exp ((strike - p) / p) * 0.015
        * (d.dte / 365) ^ (0.5 : ℝ) * (hv + d.ivJitter)) * 10 ^ 2 := by
      push_cast
      nlinarith
    have := le_pyRound h5
    calc (0.05 : ℝ) = ((5 : ℤ) : ℝ) / 10 ^ 2 := by norm_num
      _ ≤ _ := this
  have hd1 : 0.05 ≤ (mockOption p hv strike d).delta := by
    rw [hdelta]
    have hmax := le_max_left (0.05 : ℝ) (min 0.55 (0.5 + (strike - p) / p * 5))
    have h50 : ((50 : ℤ) : ℝ) ≤ max 0.05 (min 0.55 (0.5 + (strike - p) / p * 5)) * 10 ^ 3 := by
      push_cast
      nlinarith
    have := le_pyRound h50
    calc (0.05 : ℝ) = ((50 : ℤ) : ℝ) / 10 ^ 3 := by norm_num
      _ ≤ _ := this
  have hd2 : (mockOption p hv strike d).delta ≤ 0.55 := by
    rw [hdelta]
    have hmax : max (0.05 : ℝ) (min 0.55 (0.5 + (strike - p) / p * 5)) ≤ 0.55 :=
      max_le (by norm_num) (min_le_left _ _)
    have h550 : max (0.05 : ℝ) (min 0.55 (0.5 + (strike - p) / p * 5)) * 10 ^ 3
        ≤ ((550 : ℤ) : ℝ) := by
      push_cast
      nlinarith
    have := pyRound_le h550
    calc (mockOption p hv strike d).delta ≤ ((550 : ℤ) : ℝ) / 10 ^ 3 := by rw [hdelta]; exact this
      _ = 0.55 := by norm_num
  exact ⟨hp1, by linarith, hd1, hd2, by linarith⟩

/-- C10: every option record the Synthetic Quote Generator produces has
premium at least 0.05 (hence strictly positive) and delta clamped into
`[0.05, 0.55]` — in particular always positive, never the negative PUT-delta
form. -/
theorem C10_mock_invariants (tickers : List String) (price_map : String → Option (ℝ × ℝ))
    (draws : String → ℕ → MockDraw) (t : String) (d : TickerData) (o : RawOption)
    (htd : (t, d) ∈ generate_mock_data tickers price_map draws) (ho : o ∈ d.options) :
    0.05 ≤ o.premium ∧ 0 < o.premium ∧ 0.05 ≤ o.delta ∧ o.delta ≤ 0.55 ∧ 0 < o.delta := by
  induction tickers with
  | nil => simp [generate_mock_data] at htd
  | cons ticker rest ih =>
    simp only [generate_mock_data] at htd
    split at htd
    · exact ih htd
    · rcases List.mem_cons.mp htd with heq | hmem
      · rw [Prod.mk.injEq] at heq
        obtain ⟨rfl, rfl⟩ := heq
        replace ho : o ∈ mockOptions _ _ _ := ho
        unfold mockOptions at ho
        rcases List.mem_map.mp ho with ⟨i, _, rfl⟩
        exact mockOption_bounds _ _ _ _
      · exact ih hmem

/-- The strike ladder for `price = 100` has `ceil(102 - 85) = 17` rungs. -/
theorem numStrikes_100 : numStrikes 100 = 17 := by
  unfold numStrikes
  rw [show (100 : ℝ) * 1.02 - 100 * 0.85 = ((17 : ℤ) : ℝ) by norm_num, Int.ceil_intCast]
  rfl

/-- Witness for C10: the first generated option of a concrete one-ticker run. -/
theorem C10_witness :
    ("AAPL", sampleMockData) ∈ generate_mock_data ["AAPL"] samplePriceMap sampleDraws ∧
    sampleMockOption ∈ sampleMockData.options ∧
    0.05 ≤ sampleMockOption.premium ∧ 0 < sampleMockOption.premium ∧
    0.05 ≤ sampleMockOption.delta ∧ sampleMockOption.delta ≤ 0.55 ∧
    0 < sampleMockOption.delta := by
  have h1 : ("AAPL", sampleMockData) ∈ generate_mock_data ["AAPL"] samplePriceMap sampleDraws := by
    simp [generate_mock_data, samplePriceMap, sampleMockData]
  have h2 : sampleMockOption ∈ sampleMockData.options := by
    show sampleMockOption ∈ mockOptions 100 0.25 (sampleDraws "AAPL")
    unfold mockOptions
    refine List.mem_map.mpr ⟨0, List.mem_range.mpr ?_, rfl⟩
    rw [numStrikes_100]
    norm_num
  obtain ⟨ha, hb, hc, hd, he⟩ :=
    C10_mock_invariants ["AAPL"] samplePriceMap sampleDraws "AAPL" sampleMockData
      sampleMockOption h1 h2
  exact ⟨h1, h2, ha, hb, hc, hd, he⟩

/-- C9: the per-ticker error isolation of the Data Provider is unreachable —
data_provider.py line 4 imports `get_options_data` and
`calculate_greeks_approximation` from src.data.yfinance_client, but neither
name is defined at module level anywhere in the repository, so loading the
module raises `ImportError` before any batch processing can begin. -/
theorem C9_import_unresolved : data_provider_imports_resolve = false := by decide

end Monitor
